import Mathlib

/-!
Shallow embedding of the identity-deduplication and linkage core of a small
user/address HTTP service: a hashing utility (source file utils/hash.ts) and a
database-service class of SQL-backed operations over three tables (address_tbl,
user_tbl, user_address_link_tbl).  Strings coming from a JSON request body may
be absent, which we model as Option String; JavaScript truthiness on such a
value (absent or the empty string are falsy) is modelled by jsFalsy.
-/

namespace UserAddr

/-- A JavaScript string value that may be `undefined` (absent request field). -/
abbrev JStr := Option String

/-- Models the JavaScript idiom `x || ''`: `undefined` and the empty string
both yield the empty string, any other string yields itself. -/
def jsOrEmpty (s : JStr) : String :=
  match s with
  | none => ""
  | some t => t

/-- Models JavaScript falsiness `!x` of a string-or-undefined value:
true exactly for `undefined` and the empty string. -/
def jsFalsy (s : JStr) : Bool :=
  jsOrEmpty s = ""

/-- Models the JavaScript method toLowerCase (ASCII case folding,
character by character). -/
def toLowerCase (s : String) : String :=
  String.mk (s.data.map Char.toLower)

/-- Render a natural number as a hexadecimal string left-padded with zeros
to the given width (lowercase digits). -/
def hexPad (width n : Nat) : String :=
  String.mk (List.replicate (width - (Nat.toDigits 16 n).length) (Char.ofNat 48)
    ++ Nat.toDigits 16 n)

/-- A deterministic polynomial rolling hash of a string, reduced modulo the
given modulus.  Stands in for a cryptographic digest; see md5Hex. -/
def polyHash (modulus : Nat) (s : String) : Nat :=
  s.data.foldl (fun h c => (h * 65599 + c.toNat + 1) % modulus) 0

/-- Modelled from the spec: stands for the MD5 hex digest supplied by the
node crypto library, which is not part of this repository.  The spec requires
only that the digest is pure, deterministic and yields a fixed-length
lowercase hexadecimal string; it is modelled as a 128-bit polynomial hash
rendered as 32 lowercase hex digits.  No theorem in this development relies
on any property of the digest other than it being a function of its input. -/
def md5Hex (s : String) : String :=
  hexPad 32 (polyHash (2 ^ 128) s)

/-- Embeds createHash of utils/hash.ts: the SHA-256 hex digest of the data.
The digest itself comes from the node crypto library (not in this repository)
and, like md5Hex, is modelled as a polynomial hash, here 256-bit / 64 hex
digits; no theorem relies on more than determinism. -/
def createHash (data : String) : String :=
  hexPad 64 (polyHash (2 ^ 256) data)

/-- The address fields as they arrive from a request body; each may be
absent.  (The TypeScript AddressType; only these four fields are hashed.) -/
structure AddressType where
  country_id : JStr
  city : JStr
  state : JStr
  zip_code : JStr
deriving DecidableEq

/-- Embeds createAddressHash of utils/hash.ts:
the MD5 digest of the concatenation
country_id, city, state, zip_code — each defaulted to the empty string when
absent (the source guards each field with `|| ''`) — lower-cased as a whole
after concatenation. -/
def createAddressHash (address : AddressType) : String :=
  md5Hex (toLowerCase (jsOrEmpty address.country_id ++ jsOrEmpty address.city
    ++ jsOrEmpty address.state ++ jsOrEmpty address.zip_code))

/-- Embeds createUserHash of utils/hash.ts: the SHA-256 digest of the
lower-cased email.  Takes a present string, as in the TypeScript signature. -/
def createUserHash (email : String) : String :=
  createHash (toLowerCase email)

/-- createUserHash as invoked from JavaScript, where the email extracted from
a request body may be `undefined`: the source calls email.toLowerCase() with
no guard, so an absent email raises a TypeError before any hashing. -/
def createUserHashJS (email : JStr) : Except String String :=
  match email with
  | none => Except.error "TypeError: cannot read toLowerCase of undefined"
  | some e => Except.ok (createUserHash e)

/-- A stored row of address_tbl (columns from the INSERT in the service). -/
structure AddressRow where
  address_key : String
  country_id : JStr
  city : JStr
  state : JStr
  zip_code : JStr
deriving DecidableEq

/-- A stored row of user_tbl (columns from the INSERT in the service). -/
structure UserRow where
  user_key : String
  first_name : JStr
  last_name : JStr
  email : String
deriving DecidableEq

/-- A stored row of user_address_link_tbl. -/
structure LinkRow where
  user_key : String
  address_key : String
deriving DecidableEq

/-- The relational store: the three tables, each an ordered sequence of rows
(the order of a table is its insertion order; SELECT with no ORDER BY is
modelled as scanning in that order, which is what matters for rows[0]). -/
structure Db where
  address_tbl : List AddressRow
  user_tbl : List UserRow
  user_address_link_tbl : List LinkRow
deriving DecidableEq

/-- The user fields as they arrive from a request body (email must be a
present string: the service hashes it before any query). -/
structure UserType where
  first_name : JStr
  last_name : JStr
  email : String
deriving DecidableEq

/-- Embeds DatabaseService.getAddressById: SELECT * FROM address_tbl WHERE
address_key = $1, returning rows[0] or null. -/
def getAddressById (addressKey : String) (db : Db) : Option AddressRow :=
  db.address_tbl.find? (fun r => r.address_key == addressKey)

/-- Embeds DatabaseService.createAddress: compute the key with
createAddressHash, return the existing row unchanged if getAddressById finds
one; otherwise INSERT ... ON CONFLICT (address_key) DO NOTHING RETURNING *,
whose result is the inserted row, or no row when the insert was suppressed by
a key conflict (conflict-as-empty-result).  Returns rows[0] (possibly absent)
together with the updated store. -/
def createAddress (addressData : AddressType) (db : Db) :
    Option AddressRow × Db :=
  let address_key := createAddressHash addressData
  match getAddressById address_key db with
  | some existingAddress => (some existingAddress, db)
  | none =>
    if db.address_tbl.any (fun r => r.address_key == address_key) then
      (none, db)
    else
      let row : AddressRow :=
        ⟨address_key, addressData.country_id, addressData.city,
          addressData.state, addressData.zip_code⟩
      (some row, { db with address_tbl := db.address_tbl ++ [row] })

/-- Embeds DatabaseService.getUserByEmail: SELECT * FROM user_tbl WHERE
email = $1, returning rows[0] or null.  SQL string comparison is exact
(case-sensitive). -/
def getUserByEmail (email : String) (db : Db) : Option UserRow :=
  db.user_tbl.find? (fun r => r.email == email)

/-- Embeds DatabaseService.createUser: compute the key with createUserHash,
return the existing user unchanged if getUserByEmail finds one; otherwise
INSERT ... ON CONFLICT (user_key) DO NOTHING RETURNING *.  When the insert is
suppressed by a key conflict the result has no rows and the service throws
the error "Email already exists"; otherwise the inserted row is returned. -/
def createUser (userData : UserType) (db : Db) :
    Except String (UserRow × Db) :=
  let user_key := createUserHash userData.email
  match getUserByEmail userData.email db with
  | some existingUser => Except.ok (existingUser, db)
  | none =>
    if db.user_tbl.any (fun r => r.user_key == user_key) then
      Except.error "Email already exists"
    else
      let row : UserRow :=
        ⟨user_key, userData.first_name, userData.last_name, userData.email⟩
      Except.ok (row, { db with user_tbl := db.user_tbl ++ [row] })

/-- Modelled from the spec: the persisted schema (three tables) is fixed but
not shipped in the source tree; its column lists are taken from the spec's
table shapes and the INSERT statements of the service.  user_tbl has exactly
these columns. -/
def user_tbl_columns : List String :=
  ["user_key", "first_name", "last_name", "email"]

/-- Modelled from the spec: the columns of address_tbl, from the spec's table
shape and the INSERT statement of createAddress. -/
def address_tbl_columns : List String :=
  ["address_key", "country_id", "city", "state", "zip_code"]

/-- The qualified column references appearing in the SQL text of
DatabaseService.getUserByKey: its JOIN condition is
user_tbl.use_key = address_tbl.user_key. -/
def getUserByKeyColumnRefs : List (String × String) :=
  [("user_tbl", "use_key"), ("address_tbl", "user_key")]

/-- The columns of a table name, per the modelled schema. -/
def columnsOf (tbl : String) : List String :=
  if tbl = "user_tbl" then user_tbl_columns
  else if tbl = "address_tbl" then address_tbl_columns
  else []

/-- Embeds DatabaseService.getUserByKey: SELECT * FROM user_tbl JOIN
address_tbl ON user_tbl.use_key = address_tbl.user_key WHERE user_key = $1.
The relational executor (PostgreSQL) validates every column reference of a
statement before executing it and reports an undefined column as an error, so
the call succeeds only if each qualified reference names an existing column;
in that case it would scan user_tbl for the key and return rows[0] or null. -/
def getUserByKey (userKey : String) (db : Db) :
    Except String (Option UserRow) :=
  if getUserByKeyColumnRefs.all (fun p => (columnsOf p.1).contains p.2) then
    Except.ok (db.user_tbl.find? (fun r => r.user_key == userKey))
  else
    Except.error "column does not exist"

/-- The object literal returned by deleteUserAddressByEmail. -/
structure DeleteResult where
  message : String
deriving DecidableEq

/-- Embeds DatabaseService.deleteUserAddressByEmail.  First SELECT user_key
FROM user_tbl WHERE email = $1 and read rows[0]?.user_key; if that value is
falsy (no row, or an empty key) report "User not found" and touch nothing.
Otherwise: DELETE the user's link rows; then DELETE every address row whose
key is NOT IN the (now reduced) link table — a full-table orphan sweep; then
DELETE the user row(s) with that key; report success. -/
def deleteUserAddressByEmail (email : String) (db : Db) :
    DeleteResult × Db :=
  match (db.user_tbl.find? (fun r => r.email == email)).map
      (fun r => r.user_key) with
  | none => (⟨"User not found"⟩, db)
  | some userKey =>
    if userKey = "" then (⟨"User not found"⟩, db)
    else
      let links := db.user_address_link_tbl.filter
        (fun l => !(l.user_key == userKey))
      let addresses := db.address_tbl.filter
        (fun a => links.any (fun l => l.address_key == a.address_key))
      let users := db.user_tbl.filter (fun u => !(u.user_key == userKey))
      (⟨"User and associated address data deleted successfully"⟩,
        ⟨addresses, users, links⟩)

/-- The object literal {email, first_name, last_name} returned by
updateUser: the input values, not a re-read of the row. -/
structure UpdateResult where
  email : String
  first_name : String
  last_name : String
deriving DecidableEq

/-- Embeds DatabaseService.updateUser(email, first_name, last_name).  If any
of the three inputs is falsy (absent or empty) it throws "Missing required
fields" before any query.  Then SELECT * FROM user_tbl WHERE email = $1; if
no rows match it throws "User not found".  Otherwise UPDATE user_tbl SET
first_name = $2, last_name = $3 WHERE email = $1 and return the inputs. -/
def updateUser (email first_name last_name : JStr) (db : Db) :
    Except String (UpdateResult × Db) :=
  if jsFalsy email || jsFalsy first_name || jsFalsy last_name then
    Except.error "Missing required fields"
  else
    let e := jsOrEmpty email
    let f := jsOrEmpty first_name
    let l := jsOrEmpty last_name
    if (db.user_tbl.filter (fun r => r.email == e)).length = 0 then
      Except.error "User not found"
    else
      let users := db.user_tbl.map (fun u =>
        if u.email == e then { u with first_name := some f, last_name := some l }
        else u)
      Except.ok (⟨e, f, l⟩, { db with user_tbl := users })

/-- Two address field sets differ only by letter case (with an absent field
standing for the empty string, as the hashing code treats it): the four
fields agree pairwise after lower-casing. -/
def addressFieldsSameUpToCase (a1 a2 : AddressType) : Prop :=
  toLowerCase (jsOrEmpty a1.country_id) = toLowerCase (jsOrEmpty a2.country_id)
  ∧ toLowerCase (jsOrEmpty a1.city) = toLowerCase (jsOrEmpty a2.city)
  ∧ toLowerCase (jsOrEmpty a1.state) = toLowerCase (jsOrEmpty a2.state)
  ∧ toLowerCase (jsOrEmpty a1.zip_code) = toLowerCase (jsOrEmpty a2.zip_code)

instance (a1 a2 : AddressType) : Decidable (addressFieldsSameUpToCase a1 a2) :=
  inferInstanceAs (Decidable (_ ∧ _ ∧ _ ∧ _))

/-- The empty store. -/
def emptyDb : Db := ⟨[], [], []⟩

/-- The address row inserted by createAddress when no row with the key
exists. -/
def insertedAddress (a : AddressType) : AddressRow :=
  ⟨createAddressHash a, a.country_id, a.city, a.state, a.zip_code⟩

/-- The user row inserted by createUser when the email lookup finds
nothing and the key is free. -/
def insertedUser (d : UserType) : UserRow :=
  ⟨createUserHash d.email, d.first_name, d.last_name, d.email⟩

/-- Concrete address fields, upper-case variant (the spec's example). -/
def aUS : AddressType := ⟨some "US", some "New York", some "NY", some "10001"⟩

/-- Concrete address fields, lower-case variant of aUS. -/
def aus : AddressType := ⟨some "us", some "new york", some "ny", some "10001"⟩

/-- A store already holding the row keyed by createAddressHash aUS. -/
def dbWithAddr : Db := ⟨[insertedAddress aUS], [], []⟩

/-- Concrete user input. -/
def johnDoe : UserType := ⟨some "John", some "Doe", "a@b.com"⟩

/-- The row createUser inserts for johnDoe. -/
def johnRow : UserRow := insertedUser johnDoe

/-- The store after creating johnDoe in the empty store. -/
def dbJohn : Db := ⟨[], [johnRow], []⟩

/-- Concrete linkage scenario: alice is the sole link-holder of address
key ka and shares address key kb with bob. -/
def addrA : AddressRow := ⟨"ka", some "US", some "Springfield", some "IL", some "1"⟩

/-- Second address of the linkage scenario, shared by alice and bob. -/
def addrB : AddressRow := ⟨"kb", some "US", some "Shelbyville", some "IL", some "2"⟩

/-- First user of the linkage scenario. -/
def alice : UserRow := ⟨"ua", some "Alice", some "A", "alice@x.com"⟩

/-- Second user of the linkage scenario. -/
def bob : UserRow := ⟨"ub", some "Bob", some "B", "bob@x.com"⟩

/-- The linkage-scenario store: two addresses, two users, three links. -/
def dbShared : Db :=
  ⟨[addrA, addrB], [alice, bob], [⟨"ua", "ka"⟩, ⟨"ua", "kb"⟩, ⟨"ub", "kb"⟩]⟩

/-- A store holding one user keyed by the hash of the email x@y.com. -/
def xUser : UserRow := ⟨createUserHash "x@y.com", none, none, "x@y.com"⟩

/-- Store containing only xUser. -/
def dbX : Db := ⟨[], [xUser], []⟩

/-- The link table after the first DELETE of the cascade: all link rows of
the user with key k removed. -/
def linksAfterDelete (k : String) (db : Db) : List LinkRow :=
  db.user_address_link_tbl.filter (fun l => !(l.user_key == k))

/-- The address table after the orphan sweep of the cascade: only the
addresses whose key still appears in some remaining link row survive (the
sweep is over the whole table, not scoped to the deleted user). -/
def addressesAfterDelete (k : String) (db : Db) : List AddressRow :=
  db.address_tbl.filter (fun a =>
    (linksAfterDelete k db).any (fun l => l.address_key == a.address_key))

/-- The user table after the last DELETE of the cascade: the rows with key k
removed. -/
def usersAfterDelete (k : String) (db : Db) : List UserRow :=
  db.user_tbl.filter (fun r => !(r.user_key == k))

/-- The store produced by the three DELETE statements of the cascade, in
their order: links first, then the orphan sweep, then the user row. -/
def dbAfterDelete (k : String) (db : Db) : Db :=
  ⟨addressesAfterDelete k db, usersAfterDelete k db, linksAfterDelete k db⟩

/-! ### Helper lemmas -/

theorem toLowerCase_append (s t : String) :
    toLowerCase (s ++ t) = toLowerCase s ++ toLowerCase t := by
  cases s with
  | mk l1 =>
    cases t with
    | mk l2 =>
      show String.mk (List.map Char.toLower (l1 ++ l2))
        = String.mk (List.map Char.toLower l1 ++ List.map Char.toLower l2)
      rw [List.map_append]

theorem createAddressHash_congr {a1 a2 : AddressType}
    (h : addressFieldsSameUpToCase a1 a2) :
    createAddressHash a1 = createAddressHash a2 := by
  obtain ⟨h1, h2, h3, h4⟩ := h
  unfold createAddressHash
  simp only [toLowerCase_append, h1, h2, h3, h4]

theorem any_eq_false_of_find?_eq_none {α : Type} {l : List α} {p : α → Bool}
    (h : l.find? p = none) : l.any p = false := by
  rw [List.find?_eq_none] at h
  cases ha : l.any p with
  | false => rfl
  | true =>
    obtain ⟨x, hx, hpx⟩ := List.any_eq_true.mp ha
    exact absurd hpx (h x hx)

/-! ### Claim theorems -/

/-- Claim C2: both hash functions are pure, deterministic (they are Lean
functions of their arguments, so purity and determinism are inherent in the
embedding) and case-insensitive: address field sets that agree fieldwise
after lower-casing get the same createAddressHash, and emails that agree
after lower-casing get the same createUserHash. -/
theorem hashes_case_insensitive :
    (∀ a1 a2 : AddressType, addressFieldsSameUpToCase a1 a2 →
      createAddressHash a1 = createAddressHash a2)
    ∧ (∀ e1 e2 : String, toLowerCase e1 = toLowerCase e2 →
      createUserHash e1 = createUserHash e2) := by
  constructor
  · intro a1 a2 h
    exact createAddressHash_congr h
  · intro e1 e2 h
    unfold createUserHash
    rw [h]

/-- Witness for C2 at the spec's concrete example: the US/us address pair and
a case-variant email pair. -/
theorem hashes_case_insensitive_witness :
    addressFieldsSameUpToCase aUS aus
    ∧ createAddressHash aUS = createAddressHash aus
    ∧ toLowerCase "A@B.com" = toLowerCase "a@b.com"
    ∧ createUserHash "A@B.com" = createUserHash "a@b.com" :=
  ⟨by decide, hashes_case_insensitive.1 aUS aus (by decide), by decide,
    hashes_case_insensitive.2 "A@B.com" "a@b.com" (by decide)⟩

/-- Counterexample to claim C6: createUserHash, as called from JavaScript on
a request-body email, raises a TypeError when the email is absent — the
source calls email.toLowerCase() with no guard, unlike createAddressHash
which defaults every absent field to the empty string.  So the claim that
UserKey of a missing/undefined email does not raise is false. -/
theorem createUserHashJS_undefined_raises :
    createUserHashJS none
      = Except.error "TypeError: cannot read toLowerCase of undefined" := rfl

/-- Claim C6 (amended): AddressKey is total — each missing/undefined address
field is treated as the empty string, so the address hash is always
computable — and UserKey is computable for every present email; but UserKey
of a missing/undefined email raises a TypeError rather than treating it as
the empty string. -/
theorem hash_totality_amended :
    (∀ a : AddressType, createAddressHash a
      = createAddressHash ⟨some (jsOrEmpty a.country_id), some (jsOrEmpty a.city),
          some (jsOrEmpty a.state), some (jsOrEmpty a.zip_code)⟩)
    ∧ (∀ e : String, createUserHashJS (some e) = Except.ok (createUserHash e))
    ∧ (∃ msg, createUserHashJS none = Except.error msg) := by
  refine ⟨?_, fun e => rfl, ⟨_, rfl⟩⟩
  intro a
  obtain ⟨c, ci, st, z⟩ := a
  cases c <;> cases ci <;> cases st <;> cases z <;> rfl

/-- Claim C10: createAddressHash concatenates the four normalized fields with
no separator before hashing, so two address field sets that are not
field-wise equal even after case normalization — here the characters usx
split as country usx / city empty versus country us / city x — collide to the
same key, and address Create silently resolves both to the single stored row
created by the first call, adding no second row. -/
theorem createAddressHash_concat_collision :
    ¬ addressFieldsSameUpToCase ⟨some "usx", some "", some "", some ""⟩
        ⟨some "us", some "x", some "", some ""⟩
    ∧ createAddressHash ⟨some "usx", some "", some "", some ""⟩
        = createAddressHash ⟨some "us", some "x", some "", some ""⟩
    ∧ (createAddress ⟨some "us", some "x", some "", some ""⟩
        (createAddress ⟨some "usx", some "", some "", some ""⟩ emptyDb).2).1
      = (createAddress ⟨some "usx", some "", some "", some ""⟩ emptyDb).1
    ∧ (createAddress ⟨some "us", some "x", some "", some ""⟩
        (createAddress ⟨some "usx", some "", some "", some ""⟩ emptyDb).2).2
      = (createAddress ⟨some "usx", some "", some "", some ""⟩ emptyDb).2
    ∧ (createAddress ⟨some "usx", some "", some "", some ""⟩
        emptyDb).2.address_tbl.length = 1 := by
  refine ⟨by decide, by decide, by decide, by decide, by decide⟩

/-- Claim C9: the claim states FindByKey returns the stored user with the
given key or an absent result, without error; but the SQL of getUserByKey
references user_tbl.use_key (no such column — a typo for user_key) and joins
address_tbl on a user_key column address_tbl does not have, so the relational
executor rejects the statement and every call errors, for every key and every
store — including a store that does contain a user with the requested key. -/
theorem getUserByKey_always_errors :
    (∀ (userKey : String) (db : Db),
      getUserByKey userKey db = Except.error "column does not exist")
    ∧ (dbShared.user_tbl.find? (fun r => r.user_key == "ua") = some alice
        ∧ getUserByKey "ua" dbShared = Except.error "column does not exist") :=
  ⟨fun _ _ => rfl, by decide, rfl⟩

/-- Claim C1: address Create is idempotent and content-addressed.  For any
store and any two field sets that agree up to letter case, the second
createAddress call returns exactly what the first returned and leaves the
store exactly as the first left it (no second row); and when a row with the
computed key already exists, the first call returns that existing row
unchanged — the existing row's field values win over the incoming ones. -/
theorem createAddress_idempotent (a1 a2 : AddressType) (db : Db)
    (hcase : addressFieldsSameUpToCase a1 a2) :
    (createAddress a2 (createAddress a1 db).2).1 = (createAddress a1 db).1
    ∧ (createAddress a2 (createAddress a1 db).2).2 = (createAddress a1 db).2
    ∧ (getAddressById (createAddressHash a1) db ≠ none →
        (createAddress a1 db).1 = getAddressById (createAddressHash a1) db
        ∧ (createAddress a1 db).2 = db) := by
  have hk : createAddressHash a2 = createAddressHash a1 :=
    (createAddressHash_congr hcase).symm
  cases hfind : getAddressById (createAddressHash a1) db with
  | some e =>
    have h1 : createAddress a1 db = (some e, db) := by
      simp [createAddress, hfind]
    have h2 : createAddress a2 db = (some e, db) := by
      simp [createAddress, hk, hfind]
    exact ⟨by simp [h1, h2], by simp [h1, h2],
      fun _ => ⟨by simp [h1, hfind], by simp [h1]⟩⟩
  | none =>
    have hfind' : db.address_tbl.find?
        (fun r => r.address_key == createAddressHash a1) = none := hfind
    have hany : db.address_tbl.any
        (fun r => r.address_key == createAddressHash a1) = false :=
      any_eq_false_of_find?_eq_none hfind'
    have h1 : createAddress a1 db = (some (insertedAddress a1),
        { db with address_tbl := db.address_tbl ++ [insertedAddress a1] }) := by
      simp [createAddress, hfind, hany, insertedAddress]
    have hlook : getAddressById (createAddressHash a1)
        { db with address_tbl := db.address_tbl ++ [insertedAddress a1] }
        = some (insertedAddress a1) := by
      unfold getAddressById
      simp [List.find?_append, hfind', insertedAddress]
    have h2 : createAddress a2
        { db with address_tbl := db.address_tbl ++ [insertedAddress a1] }
        = (some (insertedAddress a1),
          { db with address_tbl := db.address_tbl ++ [insertedAddress a1] }) := by
      simp [createAddress, hk, hlook]
    exact ⟨by simp [h1, h2], by simp [h1, h2], fun hne => absurd rfl hne⟩

/-- Witness for C1 at the spec's example pair aUS / aus, on a store that
already holds the row with their key: both calls return the pre-existing row
and the store never changes. -/
theorem createAddress_idempotent_witness :
    addressFieldsSameUpToCase aUS aus
    ∧ (createAddress aus (createAddress aUS dbWithAddr).2).1
        = (createAddress aUS dbWithAddr).1
    ∧ (createAddress aus (createAddress aUS dbWithAddr).2).2
        = (createAddress aUS dbWithAddr).2
    ∧ getAddressById (createAddressHash aUS) dbWithAddr ≠ none
    ∧ (createAddress aUS dbWithAddr).1
        = getAddressById (createAddressHash aUS) dbWithAddr
    ∧ (createAddress aUS dbWithAddr).2 = dbWithAddr :=
  ⟨by decide, (createAddress_idempotent aUS aus dbWithAddr (by decide)).1,
    (createAddress_idempotent aUS aus dbWithAddr (by decide)).2.1,
    by decide,
    ((createAddress_idempotent aUS aus dbWithAddr (by decide)).2.2 (by decide)).1,
    ((createAddress_idempotent aUS aus dbWithAddr (by decide)).2.2 (by decide)).2⟩

/-- Counterexample to claim C3: two sequential createUser calls with the very
same email do not end in a Conflict error — the second call finds the
existing user by email and returns it unchanged with no error.  Here the
first call on the empty store inserts johnRow and the second call returns
Except.ok, not the duplicate-email error the claim requires. -/
theorem createUser_second_call_no_conflict :
    createUser johnDoe emptyDb = Except.ok (johnRow, dbJohn)
    ∧ createUser johnDoe dbJohn = Except.ok (johnRow, dbJohn) :=
  ⟨rfl, rfl⟩

/-- Claim C3 (amended): two sequential createUser calls with the same email —
the first (on a store where neither the email nor its key is present)
succeeds by inserting, and the second succeeds as well, returning the
existing row unchanged; the Conflict error "Email already exists" occurs
exactly when the email lookup finds no user but the insert is suppressed by a
key conflict (for sequential calls this happens when the second email differs
from the stored one only in case, since the key is a hash of the lower-cased
email while the email lookup is exact). -/
theorem createUser_sequential_semantics (d : UserType) (db : Db)
    (hemail : getUserByEmail d.email db = none)
    (hkey : db.user_tbl.any
      (fun r => r.user_key == createUserHash d.email) = false) :
    createUser d db = Except.ok (insertedUser d,
        { db with user_tbl := db.user_tbl ++ [insertedUser d] })
    ∧ createUser d { db with user_tbl := db.user_tbl ++ [insertedUser d] }
        = Except.ok (insertedUser d,
          { db with user_tbl := db.user_tbl ++ [insertedUser d] })
    ∧ (∀ (d2 : UserType) (db2 : Db), getUserByEmail d2.email db2 = none →
        db2.user_tbl.any (fun r => r.user_key == createUserHash d2.email) = true →
        createUser d2 db2 = Except.error "Email already exists") := by
  refine ⟨by simp [createUser, hemail, hkey, insertedUser], ?_, ?_⟩
  · have hfind : db.user_tbl.find? (fun r => r.email == d.email) = none := hemail
    have hlook : getUserByEmail d.email
        { db with user_tbl := db.user_tbl ++ [insertedUser d] }
        = some (insertedUser d) := by
      unfold getUserByEmail
      simp [List.find?_append, hfind, insertedUser]
    simp [createUser, hlook]
  · intro d2 db2 h1 h2
    simp [createUser, h1, h2]

/-- Witness for C3 (amended): johnDoe created twice starting from the empty
store — both calls succeed with the same row — and a case-variant email
A@B.com against the store holding a@b.com raises the Conflict error. -/
theorem createUser_sequential_semantics_witness :
    createUser johnDoe emptyDb = Except.ok (johnRow, dbJohn)
    ∧ createUser johnDoe dbJohn = Except.ok (johnRow, dbJohn)
    ∧ createUser ⟨none, none, "A@B.com"⟩ dbJohn
        = Except.error "Email already exists" :=
  ⟨(createUser_sequential_semantics johnDoe emptyDb (by decide) (by decide)).1,
    (createUser_sequential_semantics johnDoe emptyDb (by decide) (by decide)).2.1,
    (createUser_sequential_semantics johnDoe emptyDb (by decide) (by decide)).2.2
      ⟨none, none, "A@B.com"⟩ dbJohn (by decide) (by decide)⟩

/-- Claim C4: createUser first looks the email up and returns the existing
user unchanged (store untouched) when one exists; when none exists and the
insert is suppressed by a key conflict (zero rows returned) it fails with the
duplicate-email error rather than returning an empty result; and when none
exists and the key is free it inserts and returns the new row. -/
theorem createUser_lookup_first (d : UserType) (db : Db) :
    (∀ u, getUserByEmail d.email db = some u →
      createUser d db = Except.ok (u, db))
    ∧ (getUserByEmail d.email db = none →
        db.user_tbl.any (fun r => r.user_key == createUserHash d.email) = true →
        createUser d db = Except.error "Email already exists")
    ∧ (getUserByEmail d.email db = none →
        db.user_tbl.any (fun r => r.user_key == createUserHash d.email) = false →
        createUser d db = Except.ok (insertedUser d,
          { db with user_tbl := db.user_tbl ++ [insertedUser d] })) := by
  refine ⟨?_, ?_, ?_⟩
  · intro u hu
    simp [createUser, hu]
  · intro h1 h2
    simp [createUser, h1, h2]
  · intro h1 h2
    simp [createUser, h1, h2, insertedUser]

/-- Witness for C4: on the store holding x@y.com, re-creating x@y.com
returns the stored row unchanged, while creating the case-variant X@y.com —
whose exact-email lookup misses but whose key collides — fails with the
duplicate-email error. -/
theorem createUser_lookup_first_witness :
    createUser ⟨none, none, "x@y.com"⟩ dbX = Except.ok (xUser, dbX)
    ∧ createUser ⟨none, none, "X@y.com"⟩ dbX
        = Except.error "Email already exists" :=
  ⟨(createUser_lookup_first ⟨none, none, "x@y.com"⟩ dbX).1 xUser (by decide),
    (createUser_lookup_first ⟨none, none, "X@y.com"⟩ dbX).2.1 (by decide)
      (by decide)⟩

/-- Claim C5: on an email whose user exists (with a non-empty stored key, as
every key produced by the hashing layer is), the cascade delete produces
exactly the store given by its three DELETE statements in order — links of
the user removed first, then every address whose key appears in no remaining
link row (a full-table orphan sweep), then the user rows with that key.
Consequently an address all of whose link rows belonged to the deleted user
(in particular, an address whose sole link-holder was that user) is removed,
while an address that still has a link row from some other key survives. -/
theorem deleteUserAddressByEmail_cascade (email : String) (db : Db)
    (u : UserRow)
    (hfind : db.user_tbl.find? (fun r => r.email == email) = some u)
    (hkey : u.user_key ≠ "") :
    deleteUserAddressByEmail email db
      = (⟨"User and associated address data deleted successfully"⟩,
        dbAfterDelete u.user_key db)
    ∧ (∀ a ∈ db.address_tbl,
        (∀ l ∈ db.user_address_link_tbl,
          l.address_key = a.address_key → l.user_key = u.user_key) →
        a ∉ (deleteUserAddressByEmail email db).2.address_tbl)
    ∧ (∀ a ∈ db.address_tbl,
        (∃ l ∈ db.user_address_link_tbl,
          l.address_key = a.address_key ∧ l.user_key ≠ u.user_key) →
        a ∈ (deleteUserAddressByEmail email db).2.address_tbl) := by
  have heq : deleteUserAddressByEmail email db
      = (⟨"User and associated address data deleted successfully"⟩,
        dbAfterDelete u.user_key db) := by
    simp [deleteUserAddressByEmail, hfind, hkey, dbAfterDelete,
      linksAfterDelete, addressesAfterDelete, usersAfterDelete]
  refine ⟨heq, ?_, ?_⟩
  · intro a ha hall
    rw [heq]
    intro hmem
    obtain ⟨-, hpred⟩ := List.mem_filter.mp hmem
    obtain ⟨l, hl, hbl⟩ := List.any_eq_true.mp hpred
    obtain ⟨hl0, hlq⟩ := List.mem_filter.mp hl
    have hlu : l.user_key = u.user_key := hall l hl0 (eq_of_beq hbl)
    rw [hlu] at hlq
    simp at hlq
  · rintro a ha ⟨l, hl, hlk, hlu⟩
    rw [heq]
    refine List.mem_filter.mpr ⟨ha, List.any_eq_true.mpr ?_⟩
    refine ⟨l, List.mem_filter.mpr ⟨hl, ?_⟩, by simp [hlk]⟩
    simp [hlu]

/-- Witness for C5 on the concrete linkage scenario: deleting alice — sole
link-holder of the address keyed ka and co-holder with bob of the address
keyed kb — removes addrA and keeps addrB (and bob and his link). -/
theorem deleteUserAddressByEmail_cascade_witness :
    dbShared.user_tbl.find? (fun r => r.email == "alice@x.com") = some alice
    ∧ alice.user_key ≠ ""
    ∧ deleteUserAddressByEmail "alice@x.com" dbShared
        = (⟨"User and associated address data deleted successfully"⟩,
          ⟨[addrB], [bob], [⟨"ub", "kb"⟩]⟩)
    ∧ addrA ∉ (deleteUserAddressByEmail "alice@x.com" dbShared).2.address_tbl
    ∧ addrB ∈ (deleteUserAddressByEmail "alice@x.com" dbShared).2.address_tbl :=
  ⟨by decide, by decide,
    (deleteUserAddressByEmail_cascade "alice@x.com" dbShared alice (by decide)
      (by decide)).1.trans (by decide),
    (deleteUserAddressByEmail_cascade "alice@x.com" dbShared alice (by decide)
      (by decide)).2.1 addrA (by decide) (by decide),
    (deleteUserAddressByEmail_cascade "alice@x.com" dbShared alice (by decide)
      (by decide)).2.2 addrB (by decide)
      ⟨⟨"ub", "kb"⟩, by decide, by decide, by decide⟩⟩

/-- Claim C7: the cascade delete on an email with no matching user returns
the benign result User not found and leaves every table unchanged; and after
a successful cascade delete (on a store where the email determines the key,
as the unique-email schema guarantees) a second call with the same email
returns User not found and changes nothing, so the delete is idempotent. -/
theorem deleteUserAddressByEmail_not_found (email : String) (db : Db) :
    (db.user_tbl.find? (fun r => r.email == email) = none →
      deleteUserAddressByEmail email db = (⟨"User not found"⟩, db))
    ∧ (∀ u, db.user_tbl.find? (fun r => r.email == email) = some u →
        u.user_key ≠ "" →
        (∀ v ∈ db.user_tbl, v.email = email → v.user_key = u.user_key) →
        (deleteUserAddressByEmail email
            (deleteUserAddressByEmail email db).2).1
          = ⟨"User not found"⟩
        ∧ (deleteUserAddressByEmail email
            (deleteUserAddressByEmail email db).2).2
          = (deleteUserAddressByEmail email db).2) := by
  constructor
  · intro h
    simp [deleteUserAddressByEmail, h]
  · intro u hfind hkey huniq
    have heq : deleteUserAddressByEmail email db
        = (⟨"User and associated address data deleted successfully"⟩,
          dbAfterDelete u.user_key db) := by
      simp [deleteUserAddressByEmail, hfind, hkey, dbAfterDelete,
        linksAfterDelete, addressesAfterDelete, usersAfterDelete]
    have hnone : (dbAfterDelete u.user_key db).user_tbl.find?
        (fun r => r.email == email) = none := by
      rw [List.find?_eq_none]
      intro v hv
      obtain ⟨hv0, hvb⟩ := List.mem_filter.mp hv
      intro hb
      have hve : v.email = email := eq_of_beq hb
      rw [huniq v hv0 hve] at hvb
      simp at hvb
    rw [heq]
    constructor
    · simp [deleteUserAddressByEmail, hnone]
    · simp [deleteUserAddressByEmail, hnone]

/-- Witness for C7: on the concrete linkage scenario, deleting an absent
email changes nothing and reports User not found, and deleting alice twice
reports User not found the second time with the store unchanged. -/
theorem deleteUserAddressByEmail_not_found_witness :
    deleteUserAddressByEmail "nobody@x.com" dbShared
      = (⟨"User not found"⟩, dbShared)
    ∧ (deleteUserAddressByEmail "alice@x.com"
          (deleteUserAddressByEmail "alice@x.com" dbShared).2).1
        = ⟨"User not found"⟩
    ∧ (deleteUserAddressByEmail "alice@x.com"
          (deleteUserAddressByEmail "alice@x.com" dbShared).2).2
        = (deleteUserAddressByEmail "alice@x.com" dbShared).2 :=
  ⟨(deleteUserAddressByEmail_not_found "nobody@x.com" dbShared).1 (by decide),
    ((deleteUserAddressByEmail_not_found "alice@x.com" dbShared).2 alice
      (by decide) (by decide) (by decide)).1,
    ((deleteUserAddressByEmail_not_found "alice@x.com" dbShared).2 alice
      (by decide) (by decide) (by decide)).2⟩

/-- Claim C8: updateUser fails with the validation error Missing required
fields whenever any of email, first name, last name is absent or empty; fails
with User not found when all three are present and non-empty but no stored
row matches the email; and when a matching row exists it succeeds, updating
exactly the name fields of the matching rows and returning the inputs. -/
theorem updateUser_validation (email first_name last_name : JStr) (db : Db) :
    ((jsFalsy email || jsFalsy first_name || jsFalsy last_name) = true →
      updateUser email first_name last_name db
        = Except.error "Missing required fields")
    ∧ ((jsFalsy email || jsFalsy first_name || jsFalsy last_name) = false →
        (db.user_tbl.filter (fun r => r.email == jsOrEmpty email)).length = 0 →
        updateUser email first_name last_name db
          = Except.error "User not found")
    ∧ ((jsFalsy email || jsFalsy first_name || jsFalsy last_name) = false →
        (db.user_tbl.filter (fun r => r.email == jsOrEmpty email)).length ≠ 0 →
        updateUser email first_name last_name db
          = Except.ok
            (⟨jsOrEmpty email, jsOrEmpty first_name, jsOrEmpty last_name⟩,
              { db with user_tbl := db.user_tbl.map (fun u =>
                if u.email == jsOrEmpty email then
                  { u with
                      first_name := some (jsOrEmpty first_name),
                      last_name := some (jsOrEmpty last_name) }
                else u) })) := by
  refine ⟨?_, ?_, ?_⟩
  · intro h
    simp [updateUser, h]
  · intro h h0
    simp [updateUser, h, h0]
  · intro h h0
    simp [updateUser, h, h0]

/-- Witness for C8 at the spec's examples: an empty first name fails
validation, a non-matching email fails with User not found, and updating
alice succeeds, rewriting only her name fields. -/
theorem updateUser_validation_witness :
    updateUser (some "a@b.com") (some "") (some "Doe") dbShared
      = Except.error "Missing required fields"
    ∧ updateUser (some "missing@b.com") (some "A") (some "B") dbShared
      = Except.error "User not found"
    ∧ updateUser (some "alice@x.com") (some "Alicia") (some "Ann") dbShared
      = Except.ok (⟨"alice@x.com", "Alicia", "Ann"⟩,
        ⟨[addrA, addrB],
          [⟨"ua", some "Alicia", some "Ann", "alice@x.com"⟩, bob],
          [⟨"ua", "ka"⟩, ⟨"ua", "kb"⟩, ⟨"ub", "kb"⟩]⟩) :=
  ⟨(updateUser_validation (some "a@b.com") (some "") (some "Doe")
      dbShared).1 (by decide),
    (updateUser_validation (some "missing@b.com") (some "A") (some "B")
      dbShared).2.1 (by decide) (by decide),
    ((updateUser_validation (some "alice@x.com") (some "Alicia") (some "Ann")
      dbShared).2.2 (by decide) (by decide)).trans (by rfl)⟩

end UserAddr
